import Mathlib

/-!
Shallow embedding of the Email-Validator repository's core module
(`src/utils/emailValidator.ts`, types from `src/types/email.ts`), together
with theorems settling the specification claims about it.

String manipulation from the source (split, trim, toLowerCase, includes,
endsWith, replace) is embedded over `String.data : List Char` so that every
definition evaluates by kernel reduction on concrete inputs.

The two simulated network probes call `Math.random()`; each random draw is
embedded as one value of a boolean oracle sequence (`true` means the draw
cleared the probe's success threshold).  Wall-clock time
(`new Date().toISOString()`) is embedded as an explicit `now : String`
environment parameter.
-/

namespace EmailValidator

/-! ### JavaScript string operations, embedded over `List Char` -/

/-- ASCII whitespace recognised by `trim` (space, tab, LF, CR). -/
def isWhitespaceChar (c : Char) : Bool :=
  c.toNat = 32 || c.toNat = 9 || c.toNat = 10 || c.toNat = 13

/-- `String.prototype.trim`: drop whitespace from both ends. -/
def trimStr (s : String) : String :=
  String.mk (((s.data.dropWhile isWhitespaceChar).reverse.dropWhile isWhitespaceChar).reverse)

/-- Lower-case one ASCII character (`toLowerCase` on the character sets used here). -/
def lowerChar (c : Char) : Char :=
  if 65 ≤ c.toNat && c.toNat ≤ 90 then Char.ofNat (c.toNat + 32) else c

/-- `String.prototype.toLowerCase` (ASCII). -/
def lowerStr (s : String) : String :=
  String.mk (s.data.map lowerChar)

/-- `String.prototype.split` on a character class: the pieces between
separator characters, empty pieces included (`"".split` gives `[""]`). -/
def splitChars (p : Char → Bool) : List Char → List (List Char)
  | [] => [[]]
  | c :: cs =>
    if p c then
      [] :: splitChars p cs
    else
      match splitChars p cs with
      | [] => [[c]]
      | l :: ls => (c :: l) :: ls

/-- `split` lifted to `String`. -/
def splitStr (s : String) (p : Char → Bool) : List String :=
  (splitChars p s.data).map String.mk

/-- `String.prototype.endsWith`. -/
def endsWithStr (s suf : String) : Bool :=
  List.isSuffixOf suf.data s.data

/-- `const [localPart, domain] = email.split('@')`: the second piece
(the empty string standing in for JavaScript `undefined`). -/
def emailDomain (email : String) : String :=
  (splitStr email (fun c => c = '@')).getD 1 ""

/-! ### Data model (`src/types/email.ts`) -/

/-- `RetryStrategy` from `src/types/email.ts`. -/
structure RetryStrategy where
  maxAttempts : Nat
  backoffDelay : Nat
  timeout : Nat
deriving DecidableEq, Repr

/-- `ValidationOptions` from `src/types/email.ts`. -/
structure ValidationOptions where
  enableRetries : Bool
  retryStrategy : RetryStrategy
  validateSMTP : Bool
  strictMode : Bool
deriving DecidableEq, Repr

/-- The `details` record of `EmailValidationResult`. -/
structure ValidationDetails where
  format : Bool
  domain : Bool
  disposable : Bool
  mxRecords : Bool
  smtp : Bool
  spamTrap : Bool
  corporate : Bool
  blacklisted : Bool
  retryCount : Nat
  verificationSteps : List String
deriving DecidableEq, Repr

/-- `EmailValidationResult` from `src/types/email.ts`.  `status` and
`confidence` keep the source's literal strings. -/
structure EmailValidationResult where
  email : String
  status : String
  confidence : String
  reason : Option String
  timestamp : String
  retryAfter : Option Nat
  details : ValidationDetails
deriving DecidableEq, Repr

/-! ### Module-level constants (`src/utils/emailValidator.ts`) -/

def CHUNK_SIZE : Nat := 2000

def MAX_FILE_SIZE : Nat := 10 * 1024 * 1024

def MAX_EMAILS : Nat := 40000

def DEFAULT_RETRY_STRATEGY : RetryStrategy :=
  { maxAttempts := 3, backoffDelay := 2000, timeout := 30000 }

def DEFAULT_OPTIONS : ValidationOptions :=
  { enableRetries := true, retryStrategy := DEFAULT_RETRY_STRATEGY,
    validateSMTP := true, strictMode := false }

/-- Enterprise domain whitelist (a JS `Set`; membership is exact). -/
def ENTERPRISE_DOMAINS : List String :=
  ["microsoft.com", "apple.com", "google.com", "amazon.com",
   "facebook.com", "oracle.com", "ibm.com", "intel.com",
   "cisco.com", "hp.com", "dell.com", "samsung.com",
   "sony.com", "toyota.com", "honda.com", "bmw.com",
   "boeing.com", "ge.com", "siemens.com", "philips.com"]

/-- Educational and government top-level-domain suffixes. -/
def TRUSTED_TLDS : List String :=
  ["edu", "gov", "mil", "ac.uk", "gov.uk", "edu.au",
   "gov.au", "ac.jp", "go.jp", "edu.cn", "gov.cn"]

/-- `isEnterpriseDomain`: exact (lower-cased) membership in the enterprise
set, or the lower-cased domain ends with `"." ++ tld` for a trusted TLD. -/
def isEnterpriseDomain (domain : String) : Bool :=
  ENTERPRISE_DOMAINS.contains (lowerStr domain) ||
  TRUSTED_TLDS.any (fun tld => endsWithStr (lowerStr domain) ("." ++ tld))

/-! ### Spam-trap detector (defined in the source, never called by it) -/

/-- `[a-z0-9]` case-insensitively. -/
def isAlnumChar (c : Char) : Bool :=
  (97 ≤ c.toNat && c.toNat ≤ 122) || (65 ≤ c.toNat && c.toNat ≤ 90) ||
  (48 ≤ c.toNat && c.toNat ≤ 57)

/-- Substring containment over character lists (regex `/(pat)/` on a string). -/
def listHasSub (l sub : List Char) : Bool :=
  (List.range (l.length + 1)).any (fun i => List.isPrefixOf sub (l.drop i))

/-- The role-account patterns of `/^(abuse|postmaster|spam|noreply)@/i`. -/
def roleAccountPatterns : List String :=
  ["abuse@", "postmaster@", "spam@", "noreply@"]

/-- `detectSpamTrapPattern`: the three regex tests of the source —
a role-account local part, a 20+-character alphanumeric local part
(`/^[a-z0-9]{20,}@/i`, i.e. a maximal alphanumeric run of length ≥ 20
followed directly by `@`), or one of the substrings spam/trap/honeypot. -/
def detectSpamTrapPattern (email : String) : Bool :=
  roleAccountPatterns.any (fun p => List.isPrefixOf p.data (lowerStr email).data) ||
  (decide (20 ≤ (email.data.takeWhile isAlnumChar).length) &&
    ((email.data.drop (email.data.takeWhile isAlnumChar).length).head? == some '@')) ||
  ["spam", "trap", "honeypot"].any (fun p => listHasSub (lowerStr email).data p.data)

/-! ### Simulated network probes -/

/-- The fixed consumer-domain set inside `checkMXRecords`. -/
def validDomains : List String :=
  ["gmail.com", "yahoo.com", "hotmail.com", "outlook.com",
   "aol.com", "icloud.com", "protonmail.com", "zoho.com"]

/-- `checkMXRecords`: known consumer domain, or enterprise override, or the
random draw passes (`Math.random() > 0.1` embedded as the oracle value
`rand`).  The source's internal try/catch is vacuous (nothing throws). -/
def checkMXRecords (domain : String) (rand : Bool) : Bool :=
  validDomains.contains (lowerStr domain) || isEnterpriseDomain domain || rand

/-- `checkSMTP`: enterprise override on the address's domain, or the random
draw passes (`Math.random() > 0.05` embedded as `rand`). -/
def checkSMTP (email : String) (rand : Bool) : Bool :=
  isEnterpriseDomain (emailDomain email) || rand

/-! ### The external `validator` library, modelled from the spec -/

/-- Modelled from the spec: the repository calls the external `validator`
library's `isFQDN` (third-party code, not in this repository), described as
"validate the domain half as a fully-qualified domain name (requires a
dot-separated top-level label, rejects underscores and trailing dots)":
at least two dot-separated labels, each non-empty and made of alphanumeric
characters or hyphens, with an alphabetic top-level label of length ≥ 2. -/
def isFQDNModel (domain : String) : Bool :=
  let labels := splitStr domain (fun c => c = '.')
  decide (2 ≤ labels.length) &&
  labels.all (fun l => !l.data.isEmpty && l.data.all (fun c => isAlnumChar c || c.toNat = 45)) &&
  (match labels.getLast? with
   | some tld =>
       decide (2 ≤ tld.data.length) &&
       tld.data.all (fun c => (97 ≤ c.toNat && c.toNat ≤ 122) || (65 ≤ c.toNat && c.toNat ≤ 90))
   | none => false)

/-- Modelled from the spec: the external `validator.isEmail` check
(third-party code, not in this repository), described as "a structural
email-address grammar requiring a top-level domain and rejecting bracketed
literal IP domains and non-ASCII local parts": exactly one at-sign
separating a non-empty printable-ASCII local part from an FQDN domain. -/
def isEmailModel (email : String) : Bool :=
  match splitStr email (fun c => c = '@') with
  | [localPart, domain] =>
      !localPart.data.isEmpty &&
      localPart.data.all (fun c => 33 ≤ c.toNat && c.toNat ≤ 126) &&
      isFQDNModel domain
  | _ => false

/-! ### The retry loop

Both probe stages run the same `while (retries < maxAttempts)` loop:
call the probe; a truthy result breaks out; a falsy result increments the
counter and sleeps for `backoffDelay` when attempts remain; a thrown error
is caught, increments the counter, and retries without sleeping.
The probe's successive outcomes are an explicit sequence indexed by the
number of calls made so far; `calls` and `sleeps` count the observable
probe invocations and backoff suspensions. -/

/-- One probe invocation either returns a boolean or throws. -/
inductive ProbeOutcome where
  | ok (b : Bool)
  | err
deriving DecidableEq, Repr

/-- Exit state of the retry loop. -/
structure RetryResult where
  success : Bool
  retries : Nat
  calls : Nat
  sleeps : Nat
deriving DecidableEq, Repr

/-- The loop body; `fuel` bounds the iterations (every non-breaking
iteration increments `retries`, so `maxAttempts` iterations suffice and the
fuel exit coincides with the `retries < maxAttempts` exit). -/
def retryGo (probe : Nat → ProbeOutcome) (maxAttempts : Nat) :
    (fuel retries calls sleeps : Nat) → RetryResult
  | 0, retries, calls, sleeps => ⟨false, retries, calls, sleeps⟩
  | fuel + 1, retries, calls, sleeps =>
    if retries < maxAttempts then
      match probe calls with
      | ProbeOutcome.ok true => ⟨true, retries, calls + 1, sleeps⟩
      | ProbeOutcome.ok false =>
          if retries + 1 < maxAttempts then
            retryGo probe maxAttempts fuel (retries + 1) (calls + 1) (sleeps + 1)
          else
            retryGo probe maxAttempts fuel (retries + 1) (calls + 1) sleeps
      | ProbeOutcome.err =>
          retryGo probe maxAttempts fuel (retries + 1) (calls + 1) sleeps
    else
      ⟨false, retries, calls, sleeps⟩

/-- The whole `while (retries < maxAttempts)` loop, from
`retries = 0` with no calls or sleeps made. -/
def retryLoop (probe : Nat → ProbeOutcome) (maxAttempts : Nat) : RetryResult :=
  retryGo probe maxAttempts maxAttempts 0 0 0

/-! ### The per-address pipeline (`validateEmailWithRetry`)

The two external `validator` checks are parameters (`isEmailFn`,
`isFQDNFn`), instantiated with the spec-modelled versions in concrete
witnesses; the probes' random draws are the oracles; `now` is the
timestamp environment.  The source destructures
`const [localPart, domain] = email.split('@')` but only uses `domain`. -/

def validateEmailWithRetry (isEmailFn isFQDNFn : String → Bool)
    (mxOracle smtpOracle : Nat → Bool) (now : String)
    (email : String) (options : ValidationOptions) : EmailValidationResult :=
  if !(isEmailFn email) then
    { email := email
      status := "❌ Do Not Contact"
      confidence := "Low"
      reason := some "Invalid email format (RFC 5322)"
      timestamp := now
      retryAfter := none
      details :=
        { format := false, domain := false, disposable := false,
          mxRecords := false, smtp := false, spamTrap := false,
          corporate := false, blacklisted := false, retryCount := 0,
          verificationSteps := ["Format check failed"] } }
  else if !(isFQDNFn (emailDomain email)) then
    { email := email
      status := "❌ Do Not Contact"
      confidence := "Low"
      reason := some "Invalid domain format"
      timestamp := now
      retryAfter := none
      details :=
        { format := true, domain := false, disposable := false,
          mxRecords := false, smtp := false, spamTrap := false,
          corporate := false, blacklisted := false, retryCount := 0,
          verificationSteps := ["Format check passed"] } }
  else
    let isCorporate := isEnterpriseDomain (emailDomain email)
    let steps :=
      if isCorporate then
        ["Format check passed", "Domain format valid", "Enterprise domain detected"]
      else
        ["Format check passed", "Domain format valid"]
    let mxRes :=
      retryLoop (fun i => ProbeOutcome.ok (checkMXRecords (emailDomain email) (mxOracle i)))
        options.retryStrategy.maxAttempts
    if !mxRes.success && !isCorporate then
      { email := email
        status := "❌ Do Not Contact"
        confidence := "High"
        reason := some "No MX records found"
        timestamp := now
        retryAfter := none
        details :=
          { format := true, domain := true, disposable := false,
            mxRecords := false, smtp := false, spamTrap := false,
            corporate := false, blacklisted := false, retryCount := mxRes.retries,
            verificationSteps := steps } }
    else
      let smtpRes :=
        retryLoop (fun i => ProbeOutcome.ok (checkSMTP email (smtpOracle i)))
          options.retryStrategy.maxAttempts
      if !smtpRes.success && !isCorporate then
        if smtpRes.retries < options.retryStrategy.maxAttempts then
          { email := email
            status := "⚠️ Retry Later"
            confidence := "Medium"
            reason := some "Temporary SMTP failure"
            timestamp := now
            retryAfter := some options.retryStrategy.backoffDelay
            details :=
              { format := true, domain := true, disposable := false,
                mxRecords := true, smtp := false, spamTrap := false,
                corporate := false, blacklisted := false, retryCount := smtpRes.retries,
                verificationSteps := steps ++ ["MX records verified"] } }
        else
          { email := email
            status := "❌ Do Not Contact"
            confidence := "High"
            reason := some "SMTP verification failed"
            timestamp := now
            retryAfter := none
            details :=
              { format := true, domain := true, disposable := false,
                mxRecords := true, smtp := false, spamTrap := false,
                corporate := false, blacklisted := false, retryCount := smtpRes.retries,
                verificationSteps := steps ++ ["MX records verified"] } }
      else
        { email := email
          status := "✅ Valid – Safe to Contact"
          confidence := "High"
          reason := none
          timestamp := now
          retryAfter := none
          details :=
            { format := true, domain := true, disposable := false,
              mxRecords := true, smtp := true, spamTrap := false,
              corporate := isCorporate, blacklisted := false,
              retryCount := max mxRes.retries smtpRes.retries,
              verificationSteps := steps ++ ["MX records verified", "SMTP verification passed"] } }

/-! ### The batch orchestrator -/

/-- The `chunk` slicing loop, fueled by the iteration count (the loop runs
at most `array.length` times for any positive `size`; the source only calls
it with `CHUNK_SIZE = 2000`). -/
def chunkGo {α : Type} (size : Nat) : Nat → List α → List (List α)
  | 0, _ => []
  | _, [] => []
  | fuel + 1, x :: xs => ((x :: xs).take size) :: chunkGo size fuel ((x :: xs).drop size)

/-- `chunk(array, size)`: successive slices of length `size`. -/
def chunk {α : Type} (array : List α) (size : Nat) : List (List α) :=
  chunkGo size array.length array

/-- `validateEmailBatch`: split into `CHUNK_SIZE` groups, validate every
address of every group, and push each group's (input-ordered) results as
that group completes.  `Promise.all` makes the group completion order
nondeterministic, so it is a parameter: `order` is the sequence of group
indices in completion order (a permutation of the group indices).  The
per-address probe randomness comes from per-address oracles.  An empty
result collection raises `'No results generated from validation'`. -/
def validateEmailBatch (isEmailFn isFQDNFn : String → Bool)
    (mxOracles smtpOracles : String → Nat → Bool) (now : String)
    (emails : List String) (options : ValidationOptions)
    (order : List Nat) : Except String (List EmailValidationResult) :=
  let chunks := chunk emails CHUNK_SIZE
  let results :=
    ((order.map (fun i => chunks.getD i [])).flatten).map
      (fun email =>
        validateEmailWithRetry isEmailFn isFQDNFn (mxOracles email) (smtpOracles email)
          now email options)
  if results.length = 0 then Except.error "No results generated from validation"
  else Except.ok results

/-! ### The address parser (`parseEmailFile`) -/

/-- `email.replace(/['"]/g, '')`: drop single and double quotes
(character codes 39 and 34). -/
def stripQuotes (s : String) : String :=
  String.mk (s.data.filter (fun c => !(c.toNat = 39 || c.toNat = 34)))

/-- The token pipeline of `parseEmailFile`: split on newline or comma,
trim, keep non-empty tokens containing `@`, strip quotes, truncate to
`MAX_EMAILS`. -/
def parseTokens (text : String) : List String :=
  ((((splitStr text (fun c => c = '\n' || c = ',')).map trimStr).filter
      (fun e => !e.data.isEmpty && e.data.contains '@')).map stripQuotes).take MAX_EMAILS

/-- `parseEmailFile` (the file's `text()` content is the input):
the token pipeline, or `'No valid emails found in file'` when empty. -/
def parseEmailFile (text : String) : Except String (List String) :=
  if (parseTokens text).length = 0 then Except.error "No valid emails found in file"
  else Except.ok (parseTokens text)

/-- The token list as the spec's words describe it, before truncation:
"splitting the text on newline or comma, trimming whitespace, discarding
empty tokens and tokens lacking '@', and stripping quote characters". -/
def specTokenList (text : String) : List String :=
  (((splitStr text (fun c => c = '\n' || c = ',')).map trimStr).filter
      (fun e => !e.data.isEmpty && e.data.contains '@')).map stripQuotes

/-- The App-level chain (`App.tsx` `onDrop`): parse the file text, then run
the batch validator on the parsed addresses. -/
def processFile (isEmailFn isFQDNFn : String → Bool)
    (mxOracles smtpOracles : String → Nat → Bool) (now : String)
    (text : String) (options : ValidationOptions)
    (order : List Nat) : Except String (List EmailValidationResult) :=
  match parseEmailFile text with
  | Except.error e => Except.error e
  | Except.ok emails =>
      validateEmailBatch isEmailFn isFQDNFn mxOracles smtpOracles now emails options order

/-! ### Retry-loop lemmas -/

/-- If no probe invocation ever returns `true`, the loop never takes the
break, so it exits unsuccessfully. -/
theorem retryGo_all_fail (probe : Nat → ProbeOutcome) (m : Nat)
    (h : ∀ i, probe i ≠ ProbeOutcome.ok true) :
    ∀ fuel retries calls sleeps, (retryGo probe m fuel retries calls sleeps).success = false := by
  intro fuel
  induction fuel with
  | zero => intro r c s; rfl
  | succ fuel ih =>
    intro r c s
    by_cases hr : r < m
    · rcases hp : probe c with b | _
      · cases b
        · by_cases hr2 : r + 1 < m <;> simp [retryGo, hr, hp, hr2, ih]
        · exact absurd hp (h c)
      · simp [retryGo, hr, hp, ih]
    · simp [retryGo, hr]

/-- An unsuccessful exit of the loop happens exactly when the counter has
reached `maxAttempts` (given enough fuel and a counter not already past
the bound, as at the loop entry). -/
theorem retryGo_exhaust (probe : Nat → ProbeOutcome) (m : Nat) :
    ∀ fuel retries calls sleeps, m ≤ fuel + retries → retries ≤ m →
      (retryGo probe m fuel retries calls sleeps).success = false →
      (retryGo probe m fuel retries calls sleeps).retries = m := by
  intro fuel
  induction fuel with
  | zero =>
    intro r c s h1 h2 _
    simp only [retryGo]
    omega
  | succ fuel ih =>
    intro r c s h1 h2 h3
    by_cases hr : r < m
    · rcases hp : probe c with b | _
      · cases b
        · by_cases hr2 : r + 1 < m
          · simp only [retryGo, hp, if_pos hr, if_pos hr2] at h3 ⊢
            exact ih (r + 1) (c + 1) (s + 1) (by omega) (by omega) h3
          · simp only [retryGo, hp, if_pos hr, if_neg hr2] at h3 ⊢
            exact ih (r + 1) (c + 1) s (by omega) (by omega) h3
        · simp [retryGo, hr, hp] at h3
      · simp only [retryGo, hp, if_pos hr] at h3 ⊢
        exact ih (r + 1) (c + 1) s (by omega) (by omega) h3
    · simp only [retryGo, if_neg hr]
      omega

/-- A probe that fails `k` times and then succeeds, started anywhere in the
loop with attempts remaining: exactly `k + 1` further calls and `k` further
sleeps happen, and the loop breaks with the counter advanced by `k`. -/
theorem retryGo_fail_then_success (probe : Nat → ProbeOutcome) (m : Nat) :
    ∀ k retries calls sleeps, retries + k < m →
      (∀ i, i < k → probe (calls + i) = ProbeOutcome.ok false) →
      probe (calls + k) = ProbeOutcome.ok true →
      retryGo probe m (m - retries) retries calls sleeps =
        ⟨true, retries + k, calls + k + 1, sleeps + k⟩ := by
  intro k
  induction k with
  | zero =>
    intro r c s h1 _ hs
    obtain ⟨f, hf⟩ : ∃ f, m - r = f + 1 := ⟨m - r - 1, by omega⟩
    rw [hf]
    have hr : r < m := by omega
    have hc : probe c = ProbeOutcome.ok true := by simpa using hs
    simp [retryGo, hr, hc]
  | succ k ih =>
    intro r c s h1 hf hs
    obtain ⟨f, hfeq⟩ : ∃ f, m - r = f + 1 := ⟨m - r - 1, by omega⟩
    rw [hfeq]
    have hr : r < m := by omega
    have hc : probe c = ProbeOutcome.ok false := by simpa using hf 0 (by omega)
    have hr2 : r + 1 < m := by omega
    have hrec := ih (r + 1) (c + 1) (s + 1) (by omega)
      (fun i hi => by
        have := hf (i + 1) (by omega)
        simpa [Nat.add_assoc, Nat.add_comm 1 i] using this)
      (by
        have := hs
        simpa [Nat.add_assoc, Nat.add_comm 1 k] using this)
    have hfuel : m - (r + 1) = f := by omega
    rw [hfuel] at hrec
    simp only [retryGo, hc, if_pos hr, if_pos hr2, hrec]
    congr 1 <;> omega

/-- `retryGo_fail_then_success` at the loop entry. -/
theorem retryLoop_fail_then_success (probe : Nat → ProbeOutcome) (m k : Nat)
    (hk : k < m)
    (hf : ∀ i, i < k → probe i = ProbeOutcome.ok false)
    (hs : probe k = ProbeOutcome.ok true) :
    retryLoop probe m = ⟨true, k, k + 1, k⟩ := by
  have := retryGo_fail_then_success probe m k 0 0 0 (by omega)
    (fun i hi => by simpa using hf i hi) (by simpa using hs)
  simpa [retryLoop, Nat.sub_zero] using this

/-- At the loop entry, if the probe never succeeds the loop exits
unsuccessfully with the counter equal to `maxAttempts`. -/
theorem retryLoop_all_fail (probe : Nat → ProbeOutcome) (m : Nat)
    (h : ∀ i, probe i ≠ ProbeOutcome.ok true) :
    (retryLoop probe m).success = false ∧ (retryLoop probe m).retries = m := by
  have h1 := retryGo_all_fail probe m h m 0 0 0
  exact ⟨h1, retryGo_exhaust probe m m 0 0 0 (by omega) (by omega) h1⟩

/-- An always-successful probe is called at most once and the counter never
moves. -/
theorem retryLoop_const_true (m : Nat) :
    (retryLoop (fun _ => ProbeOutcome.ok true) m).retries = 0 := by
  cases m <;> simp [retryLoop, retryGo]

/-- Two probe sequences that succeed at exactly the same invocations (one
may throw where the other returns `false`) drive the loop to the same exit
success, the same counter value, and the same number of calls, whatever
sleep counts the two runs carry. -/
theorem retryGo_agree (p1 p2 : Nat → ProbeOutcome) (m : Nat)
    (h : ∀ i, p1 i = ProbeOutcome.ok true ↔ p2 i = ProbeOutcome.ok true) :
    ∀ fuel retries calls s1 s2,
      (retryGo p1 m fuel retries calls s1).success =
        (retryGo p2 m fuel retries calls s2).success ∧
      (retryGo p1 m fuel retries calls s1).retries =
        (retryGo p2 m fuel retries calls s2).retries ∧
      (retryGo p1 m fuel retries calls s1).calls =
        (retryGo p2 m fuel retries calls s2).calls := by
  intro fuel
  induction fuel with
  | zero => intro r c s1 s2; exact ⟨rfl, rfl, rfl⟩
  | succ fuel ih =>
    intro r c s1 s2
    by_cases hr : r < m
    · rcases hp1 : p1 c with b1 | _
      · cases b1
        · have hp2 : p2 c ≠ ProbeOutcome.ok true := by
            intro hx
            rw [← h c] at hx
            rw [hp1] at hx
            exact ProbeOutcome.noConfusion hx (fun he => Bool.noConfusion he)
          rcases hq : p2 c with b2 | _
          · cases b2
            · by_cases hr2 : r + 1 < m <;>
                simpa [retryGo, hr, hp1, hq, hr2] using ih (r + 1) (c + 1) _ _
            · exact absurd hq hp2
          · by_cases hr2 : r + 1 < m <;>
              simpa [retryGo, hr, hp1, hq, hr2] using ih (r + 1) (c + 1) _ _
        · have hp2 : p2 c = ProbeOutcome.ok true := (h c).mp hp1
          simp [retryGo, hr, hp1, hp2]
      · have hp2 : p2 c ≠ ProbeOutcome.ok true := by
          intro hx
          rw [← h c] at hx
          rw [hp1] at hx
          exact ProbeOutcome.noConfusion hx
        rcases hq : p2 c with b2 | _
        · cases b2
          · by_cases hr2 : r + 1 < m <;>
              simpa [retryGo, hr, hp1, hq, hr2] using ih (r + 1) (c + 1) _ _
          · exact absurd hq hp2
        · simpa [retryGo, hr, hp1, hq] using ih (r + 1) (c + 1) _ _
    · simp [retryGo, hr]

/-! ### List lemmas for the batch orchestrator -/

/-- Indexing a list by `0, …, length-1` reproduces the list. -/
theorem map_getD_range {α : Type} (l : List α) (d : α) :
    (List.range l.length).map (fun i => l.getD i d) = l := by
  induction l with
  | nil => rfl
  | cons x xs ih =>
    rw [List.length_cons, List.range_succ_eq_map, List.map_cons, List.map_map]
    simp only [Function.comp_def, List.getD_cons_zero, List.getD_cons_succ]
    rw [ih]

/-- Flattening the chunks gives back the original list (positive size). -/
theorem chunkGo_flatten {α : Type} (size : Nat) (hs : 1 ≤ size) :
    ∀ fuel (l : List α), l.length ≤ fuel → (chunkGo size fuel l).flatten = l := by
  intro fuel
  induction fuel with
  | zero =>
    intro l hl
    have : l = [] := List.length_eq_zero.mp (by omega)
    simp [this, chunkGo]
  | succ fuel ih =>
    intro l hl
    cases l with
    | nil => rfl
    | cons x xs =>
      simp only [chunkGo, List.flatten_cons]
      rw [ih ((x :: xs).drop size) (by simp only [List.length_drop]; simp at hl ⊢; omega)]
      exact List.take_append_drop size (x :: xs)

/-- `chunk` at its call fuel. -/
theorem chunk_flatten {α : Type} (l : List α) (size : Nat) (hs : 1 ≤ size) :
    (chunk l size).flatten = l :=
  chunkGo_flatten size hs l.length l (Nat.le_refl _)

/-! ### Pipeline helper lemmas -/

/-- Every branch of `validateEmailWithRetry` carries the input address in
its `email` field. -/
theorem validate_email_field (isEmailFn isFQDNFn : String → Bool)
    (mxOracle smtpOracle : Nat → Bool) (now email : String)
    (options : ValidationOptions) :
    (validateEmailWithRetry isEmailFn isFQDNFn mxOracle smtpOracle now email options).email
      = email := by
  unfold validateEmailWithRetry
  dsimp only
  repeat' split
  all_goals rfl

/-- `validateEmailWithRetry` reads `options` only through
`retryStrategy.maxAttempts` and `retryStrategy.backoffDelay`. -/
theorem validate_options_only (isEmailFn isFQDNFn : String → Bool)
    (mxOracle smtpOracle : Nat → Bool) (now email : String)
    (o1 o2 : ValidationOptions)
    (hm : o1.retryStrategy.maxAttempts = o2.retryStrategy.maxAttempts)
    (hb : o1.retryStrategy.backoffDelay = o2.retryStrategy.backoffDelay) :
    validateEmailWithRetry isEmailFn isFQDNFn mxOracle smtpOracle now email o1 =
      validateEmailWithRetry isEmailFn isFQDNFn mxOracle smtpOracle now email o2 := by
  unfold validateEmailWithRetry
  rw [hm, hb]

/-! ### Claims -/

/-- Claim C1: for a non-corporate address that passes both structural
checks and reaches the transport stage (the MX retry loop succeeded), if
the SMTP probe never succeeds then the SMTP retry loop exits with its
attempt counter equal to `maxAttempts`; the guard `retries < maxAttempts`
of the `Retry Later` branch is therefore false and that branch is
unreachable: the result is the terminal `Do Not Contact` verdict with
reason `SMTP verification failed`. -/
theorem claim_C1_retryLater_unreachable
    (isEmailFn isFQDNFn : String → Bool) (mxOracle smtpOracle : Nat → Bool)
    (now email : String) (options : ValidationOptions)
    (hfmt : isEmailFn email = true)
    (hdom : isFQDNFn (emailDomain email) = true)
    (hcorp : isEnterpriseDomain (emailDomain email) = false)
    (hmx : (retryLoop (fun i => ProbeOutcome.ok (checkMXRecords (emailDomain email) (mxOracle i)))
        options.retryStrategy.maxAttempts).success = true)
    (hsmtp : ∀ i, checkSMTP email (smtpOracle i) = false) :
    (retryLoop (fun i => ProbeOutcome.ok (checkSMTP email (smtpOracle i)))
        options.retryStrategy.maxAttempts).retries = options.retryStrategy.maxAttempts ∧
    ¬ (retryLoop (fun i => ProbeOutcome.ok (checkSMTP email (smtpOracle i)))
        options.retryStrategy.maxAttempts).retries < options.retryStrategy.maxAttempts ∧
    (validateEmailWithRetry isEmailFn isFQDNFn mxOracle smtpOracle now email options).status
      = "❌ Do Not Contact" ∧
    (validateEmailWithRetry isEmailFn isFQDNFn mxOracle smtpOracle now email options).reason
      = some "SMTP verification failed" ∧
    (validateEmailWithRetry isEmailFn isFQDNFn mxOracle smtpOracle now email options).confidence
      = "High" := by
  have hprobe : ∀ i, (fun j => ProbeOutcome.ok (checkSMTP email (smtpOracle j))) i
      ≠ ProbeOutcome.ok true := by
    intro i h
    rw [show (fun j => ProbeOutcome.ok (checkSMTP email (smtpOracle j))) i
        = ProbeOutcome.ok (checkSMTP email (smtpOracle i)) from rfl, hsmtp i] at h
    exact Bool.noConfusion (ProbeOutcome.ok.inj h)
  obtain ⟨hsucc, hret⟩ := retryLoop_all_fail _ options.retryStrategy.maxAttempts hprobe
  refine ⟨hret, by omega, ?_, ?_, ?_⟩ <;>
    simp [validateEmailWithRetry, hfmt, hdom, hcorp, hmx, hsucc, hret]

/-- Claim C1 witness at `bob@gmail.com` (consumer MX domain, never-passing
SMTP randomness). -/
theorem claim_C1_witness :
    (validateEmailWithRetry isEmailModel isFQDNModel (fun _ => false) (fun _ => false)
        "2026-02-03T00:00:00.000Z" "bob@gmail.com" DEFAULT_OPTIONS).status
      = "❌ Do Not Contact" ∧
    (validateEmailWithRetry isEmailModel isFQDNModel (fun _ => false) (fun _ => false)
        "2026-02-03T00:00:00.000Z" "bob@gmail.com" DEFAULT_OPTIONS).reason
      = some "SMTP verification failed" :=
  ⟨(claim_C1_retryLater_unreachable isEmailModel isFQDNModel (fun _ => false) (fun _ => false)
      "2026-02-03T00:00:00.000Z" "bob@gmail.com" DEFAULT_OPTIONS
      (by decide) (by decide) (by decide) (by decide) (fun _ => rfl)).2.2.1,
   (claim_C1_retryLater_unreachable isEmailModel isFQDNModel (fun _ => false) (fun _ => false)
      "2026-02-03T00:00:00.000Z" "bob@gmail.com" DEFAULT_OPTIONS
      (by decide) (by decide) (by decide) (by decide) (fun _ => rfl)).2.2.2.1⟩

/-- Claim C2 (amended): for every address that passes the format and
domain-format checks and whose domain is a corporate/enterprise domain, the
two probe stages cannot affect the outcome (the result is the same for any
probe randomness, and no retry or backoff ever happens: the recorded retry
count is 0) and the verdict is `Valid` with confidence `High` and
`details.corporate = true`. -/
theorem claim_C2_amended
    (isEmailFn isFQDNFn : String → Bool) (mx1 smtp1 mx2 smtp2 : Nat → Bool)
    (now email : String) (options : ValidationOptions)
    (hfmt : isEmailFn email = true)
    (hdom : isFQDNFn (emailDomain email) = true)
    (hcorp : isEnterpriseDomain (emailDomain email) = true) :
    validateEmailWithRetry isEmailFn isFQDNFn mx1 smtp1 now email options =
      validateEmailWithRetry isEmailFn isFQDNFn mx2 smtp2 now email options ∧
    (validateEmailWithRetry isEmailFn isFQDNFn mx1 smtp1 now email options).status
      = "✅ Valid – Safe to Contact" ∧
    (validateEmailWithRetry isEmailFn isFQDNFn mx1 smtp1 now email options).confidence
      = "High" ∧
    (validateEmailWithRetry isEmailFn isFQDNFn mx1 smtp1 now email options).details.corporate
      = true ∧
    (validateEmailWithRetry isEmailFn isFQDNFn mx1 smtp1 now email options).details.retryCount
      = 0 := by
  have key : ∀ (mxO smtpO : Nat → Bool),
      validateEmailWithRetry isEmailFn isFQDNFn mxO smtpO now email options =
        { email := email, status := "✅ Valid – Safe to Contact", confidence := "High",
          reason := none, timestamp := now, retryAfter := none,
          details :=
            { format := true, domain := true, disposable := false, mxRecords := true,
              smtp := true, spamTrap := false, corporate := true, blacklisted := false,
              retryCount := 0,
              verificationSteps :=
                ["Format check passed", "Domain format valid", "Enterprise domain detected",
                 "MX records verified", "SMTP verification passed"] } } := by
    intro mxO smtpO
    have hmxprobe : (fun i => ProbeOutcome.ok (checkMXRecords (emailDomain email) (mxO i)))
        = fun _ => ProbeOutcome.ok true := by
      funext i
      simp [checkMXRecords, hcorp]
    have hsmtpprobe : (fun i => ProbeOutcome.ok (checkSMTP email (smtpO i)))
        = fun _ => ProbeOutcome.ok true := by
      funext i
      simp [checkSMTP, hcorp]
    simp [validateEmailWithRetry, hfmt, hdom, hcorp, hmxprobe, hsmtpprobe, retryLoop_const_true]
  rw [key mx1 smtp1, key mx2 smtp2]
  exact ⟨rfl, rfl, rfl, rfl, rfl⟩

/-- Claim C2 counterexample: `é@google.com` has the corporate domain
`google.com` (its split-off domain half is in the enterprise set), but the
claim fails on it: the format check rejects the non-ASCII local part, so
the verdict is `Do Not Contact` with `details.corporate = false`, not
`Valid`/`High`/`corporate = true`. -/
theorem claim_C2_counterexample :
    isEnterpriseDomain (emailDomain "é@google.com") = true ∧
    (validateEmailWithRetry isEmailModel isFQDNModel (fun _ => true) (fun _ => true)
        "2026-02-03T00:00:00.000Z" "é@google.com" DEFAULT_OPTIONS).status = "❌ Do Not Contact" ∧
    (validateEmailWithRetry isEmailModel isFQDNModel (fun _ => true) (fun _ => true)
        "2026-02-03T00:00:00.000Z" "é@google.com" DEFAULT_OPTIONS).details.corporate = false := by
  decide

/-- Claim C2 witness at `sales@google.com` with two different probe
randomness choices. -/
theorem claim_C2_witness :
    validateEmailWithRetry isEmailModel isFQDNModel (fun _ => false) (fun _ => false)
        "2026-02-03T00:00:00.000Z" "sales@google.com" DEFAULT_OPTIONS =
      validateEmailWithRetry isEmailModel isFQDNModel (fun _ => true) (fun _ => true)
        "2026-02-03T00:00:00.000Z" "sales@google.com" DEFAULT_OPTIONS ∧
    (validateEmailWithRetry isEmailModel isFQDNModel (fun _ => false) (fun _ => false)
        "2026-02-03T00:00:00.000Z" "sales@google.com" DEFAULT_OPTIONS).status
      = "✅ Valid – Safe to Contact" ∧
    (validateEmailWithRetry isEmailModel isFQDNModel (fun _ => false) (fun _ => false)
        "2026-02-03T00:00:00.000Z" "sales@google.com" DEFAULT_OPTIONS).confidence = "High" ∧
    (validateEmailWithRetry isEmailModel isFQDNModel (fun _ => false) (fun _ => false)
        "2026-02-03T00:00:00.000Z" "sales@google.com" DEFAULT_OPTIONS).details.corporate = true ∧
    (validateEmailWithRetry isEmailModel isFQDNModel (fun _ => false) (fun _ => false)
        "2026-02-03T00:00:00.000Z" "sales@google.com" DEFAULT_OPTIONS).details.retryCount = 0 :=
  claim_C2_amended isEmailModel isFQDNModel (fun _ => false) (fun _ => false)
    (fun _ => true) (fun _ => true) "2026-02-03T00:00:00.000Z" "sales@google.com"
    DEFAULT_OPTIONS (by decide) (by decide) (by decide)

/-- Claim C3 (amended): an address failing the format check gets the
terminal `Do Not Contact` verdict with confidence `Low`, the probe stages
are never invoked (the result is the same for any probe randomness), and
`verificationSteps` has exactly one entry — but the recorded reason is the
source's literal `"Invalid email format (RFC 5322)"`, not
`"Invalid email format"`. -/
theorem claim_C3_amended (isEmailFn isFQDNFn : String → Bool)
    (mx1 smtp1 mx2 smtp2 : Nat → Bool) (now email : String)
    (options : ValidationOptions)
    (hfmt : isEmailFn email = false) :
    validateEmailWithRetry isEmailFn isFQDNFn mx1 smtp1 now email options =
      validateEmailWithRetry isEmailFn isFQDNFn mx2 smtp2 now email options ∧
    (validateEmailWithRetry isEmailFn isFQDNFn mx1 smtp1 now email options).status
      = "❌ Do Not Contact" ∧
    (validateEmailWithRetry isEmailFn isFQDNFn mx1 smtp1 now email options).confidence
      = "Low" ∧
    (validateEmailWithRetry isEmailFn isFQDNFn mx1 smtp1 now email options).reason
      = some "Invalid email format (RFC 5322)" ∧
    (validateEmailWithRetry isEmailFn isFQDNFn mx1 smtp1 now email
        options).details.verificationSteps = ["Format check failed"] ∧
    (validateEmailWithRetry isEmailFn isFQDNFn mx1 smtp1 now email
        options).details.verificationSteps.length = 1 := by
  simp [validateEmailWithRetry, hfmt]

/-- Claim C3 counterexample: at the concrete malformed address
`not-an-email` the recorded reason string is
`"Invalid email format (RFC 5322)"`, not the claim's
`"Invalid email format"`. -/
theorem claim_C3_counterexample :
    isEmailModel "not-an-email" = false ∧
    (validateEmailWithRetry isEmailModel isFQDNModel (fun _ => true) (fun _ => true)
        "2026-02-03T00:00:00.000Z" "not-an-email" DEFAULT_OPTIONS).status = "❌ Do Not Contact" ∧
    (validateEmailWithRetry isEmailModel isFQDNModel (fun _ => true) (fun _ => true)
        "2026-02-03T00:00:00.000Z" "not-an-email" DEFAULT_OPTIONS).reason
      = some "Invalid email format (RFC 5322)" ∧
    (validateEmailWithRetry isEmailModel isFQDNModel (fun _ => true) (fun _ => true)
        "2026-02-03T00:00:00.000Z" "not-an-email" DEFAULT_OPTIONS).reason
      ≠ some "Invalid email format" := by
  decide

/-- Claim C3 witness at `not-an-email` with two different probe randomness
choices. -/
theorem claim_C3_witness :
    validateEmailWithRetry isEmailModel isFQDNModel (fun _ => false) (fun _ => false)
        "2026-02-03T00:00:00.000Z" "not-an-email" DEFAULT_OPTIONS =
      validateEmailWithRetry isEmailModel isFQDNModel (fun _ => true) (fun _ => true)
        "2026-02-03T00:00:00.000Z" "not-an-email" DEFAULT_OPTIONS ∧
    (validateEmailWithRetry isEmailModel isFQDNModel (fun _ => false) (fun _ => false)
        "2026-02-03T00:00:00.000Z" "not-an-email" DEFAULT_OPTIONS).status = "❌ Do Not Contact" ∧
    (validateEmailWithRetry isEmailModel isFQDNModel (fun _ => false) (fun _ => false)
        "2026-02-03T00:00:00.000Z" "not-an-email" DEFAULT_OPTIONS).confidence = "Low" ∧
    (validateEmailWithRetry isEmailModel isFQDNModel (fun _ => false) (fun _ => false)
        "2026-02-03T00:00:00.000Z" "not-an-email" DEFAULT_OPTIONS).reason
      = some "Invalid email format (RFC 5322)" ∧
    (validateEmailWithRetry isEmailModel isFQDNModel (fun _ => false) (fun _ => false)
        "2026-02-03T00:00:00.000Z" "not-an-email" DEFAULT_OPTIONS).details.verificationSteps
      = ["Format check failed"] ∧
    (validateEmailWithRetry isEmailModel isFQDNModel (fun _ => false) (fun _ => false)
        "2026-02-03T00:00:00.000Z" "not-an-email" DEFAULT_OPTIONS).details.verificationSteps.length
      = 1 :=
  claim_C3_amended isEmailModel isFQDNModel (fun _ => false) (fun _ => false)
    (fun _ => true) (fun _ => true) "2026-02-03T00:00:00.000Z" "not-an-email"
    DEFAULT_OPTIONS (by decide)

/-- Claim C4: in the retry loop, a probe that fails exactly `k` times with
`k < maxAttempts` and then succeeds is invoked exactly `k + 1` times in
total, and the backoff sleep is performed exactly `k` times. -/
theorem claim_C4_retry_counts (probe : Nat → ProbeOutcome) (m k : Nat)
    (hk : k < m)
    (hf : ∀ i, i < k → probe i = ProbeOutcome.ok false)
    (hs : probe k = ProbeOutcome.ok true) :
    (retryLoop probe m).calls = k + 1 ∧
    (retryLoop probe m).sleeps = k ∧
    (retryLoop probe m).success = true := by
  rw [retryLoop_fail_then_success probe m k hk hf hs]
  exact ⟨rfl, rfl, rfl⟩

/-- Claim C4 witness: two failures then a success under `maxAttempts = 3`:
3 calls, 2 sleeps. -/
theorem claim_C4_witness :
    (retryLoop (fun i => if i < 2 then ProbeOutcome.ok false else ProbeOutcome.ok true) 3).calls
      = 3 ∧
    (retryLoop (fun i => if i < 2 then ProbeOutcome.ok false else ProbeOutcome.ok true) 3).sleeps
      = 2 ∧
    (retryLoop (fun i => if i < 2 then ProbeOutcome.ok false else ProbeOutcome.ok true) 3).success
      = true := by
  have h := claim_C4_retry_counts
    (fun i => if i < 2 then ProbeOutcome.ok false else ProbeOutcome.ok true) 3 2
    (by omega) (fun i hi => by simp [hi]) (by simp)
  simpa using h

/-- A probe that throws on its first invocation and succeeds on the
second. -/
def probeErrThenTrue : Nat → ProbeOutcome :=
  fun i => if i = 0 then ProbeOutcome.err else ProbeOutcome.ok true

/-- A probe that returns `false` on its first invocation and succeeds on
the second. -/
def probeFalseThenTrue : Nat → ProbeOutcome :=
  fun i => if i = 0 then ProbeOutcome.ok false else ProbeOutcome.ok true

/-- Claim C5 (amended): a probe error is counted like a returned `false`
(one failed attempt, not propagated) and the loop's exit success, attempt
counter and call count preserve no distinction between the two failure
modes; but the sleeping behaviour differs: the returned-`false` path sleeps
before the next attempt while the thrown-error path retries without the
backoff sleep. -/
theorem claim_C5_amended (p1 p2 : Nat → ProbeOutcome) (m : Nat)
    (h : ∀ i, p1 i = ProbeOutcome.ok true ↔ p2 i = ProbeOutcome.ok true) :
    (retryLoop p1 m).success = (retryLoop p2 m).success ∧
    (retryLoop p1 m).retries = (retryLoop p2 m).retries ∧
    (retryLoop p1 m).calls = (retryLoop p2 m).calls :=
  retryGo_agree p1 p2 m h m 0 0 0 0

/-- Claim C5 counterexample: with `maxAttempts = 2`, a first-call error is
followed by an immediate retry (0 sleeps) whereas a first-call `false`
sleeps once — the two failure modes do not lead to the same sleeping
behaviour, though attempt counter and call count agree. -/
theorem claim_C5_counterexample :
    (retryLoop probeErrThenTrue 2).sleeps = 0 ∧
    (retryLoop probeFalseThenTrue 2).sleeps = 1 ∧
    (retryLoop probeErrThenTrue 2).retries = (retryLoop probeFalseThenTrue 2).retries ∧
    (retryLoop probeErrThenTrue 2).calls = (retryLoop probeFalseThenTrue 2).calls := by
  decide

/-- Claim C5 witness: the error-then-success and false-then-success probes
agree on exit success, attempt counter and call count. -/
theorem claim_C5_witness :
    (retryLoop probeErrThenTrue 2).success = (retryLoop probeFalseThenTrue 2).success ∧
    (retryLoop probeErrThenTrue 2).retries = (retryLoop probeFalseThenTrue 2).retries ∧
    (retryLoop probeErrThenTrue 2).calls = (retryLoop probeFalseThenTrue 2).calls :=
  claim_C5_amended probeErrThenTrue probeFalseThenTrue 2
    (fun i => by
      by_cases h : i = 0 <;> simp [probeErrThenTrue, probeFalseThenTrue, h])

/-- A permutation of a list of lists flattens to a permutation. -/
theorem perm_flatten {α : Type} {l1 l2 : List (List α)} (h : l1.Perm l2) :
    l1.flatten.Perm l2.flatten := by
  induction h with
  | nil => exact List.Perm.refl _
  | cons x _ ih => simpa using ih.append_left x
  | swap x y l =>
    simp only [List.flatten_cons, ← List.append_assoc]
    exact List.perm_append_comm.append_right _
  | trans _ _ ih1 ih2 => exact ih1.trans ih2

/-- Claim C6: for every non-empty input list and every completion order of
the chunks, `validateEmailBatch` returns exactly one `ValidationResult` per
input email, and the multiset of `email` fields of the results equals the
multiset of inputs (the order may differ from input order). -/
theorem claim_C6_batch_bijection (isEmailFn isFQDNFn : String → Bool)
    (mxOracles smtpOracles : String → Nat → Bool) (now : String)
    (emails : List String) (options : ValidationOptions) (order : List Nat)
    (hne : emails ≠ [])
    (hperm : order.Perm (List.range (chunk emails CHUNK_SIZE).length)) :
    ∃ res,
      validateEmailBatch isEmailFn isFQDNFn mxOracles smtpOracles now emails options order
        = Except.ok res ∧
      res.length = emails.length ∧
      (res.map (fun r => r.email)).Perm emails := by
  have hmap : (order.map (fun i => (chunk emails CHUNK_SIZE).getD i [])).Perm
      (chunk emails CHUNK_SIZE) := by
    have h1 := hperm.map (fun i => (chunk emails CHUNK_SIZE).getD i [])
    rwa [map_getD_range (chunk emails CHUNK_SIZE) []] at h1
  have hflat : ((order.map (fun i => (chunk emails CHUNK_SIZE).getD i [])).flatten).Perm
      emails := by
    have h2 := perm_flatten hmap
    rwa [chunk_flatten emails CHUNK_SIZE (by decide)] at h2
  have hlen : ((order.map (fun i => (chunk emails CHUNK_SIZE).getD i [])).flatten).length
      = emails.length := hflat.length_eq
  have hemails : (((order.map (fun i => (chunk emails CHUNK_SIZE).getD i [])).flatten).map
        (fun email =>
          validateEmailWithRetry isEmailFn isFQDNFn (mxOracles email) (smtpOracles email)
            now email options)).map (fun r => r.email)
      = (order.map (fun i => (chunk emails CHUNK_SIZE).getD i [])).flatten := by
    rw [List.map_map]
    have := List.map_congr_left
      (l := (order.map (fun i => (chunk emails CHUNK_SIZE).getD i [])).flatten)
      (f := (fun r => EmailValidationResult.email r) ∘
        (fun email =>
          validateEmailWithRetry isEmailFn isFQDNFn (mxOracles email) (smtpOracles email)
            now email options))
      (g := id)
      (fun a _ => validate_email_field isEmailFn isFQDNFn (mxOracles a) (smtpOracles a)
        now a options)
    rw [this, List.map_id]
  have hpos : 0 < emails.length := by
    cases emails with
    | nil => exact absurd rfl hne
    | cons x xs => simp
  refine ⟨((order.map (fun i => (chunk emails CHUNK_SIZE).getD i [])).flatten).map
      (fun email =>
        validateEmailWithRetry isEmailFn isFQDNFn (mxOracles email) (smtpOracles email)
          now email options), ?_, ?_, ?_⟩
  · have hne0 : ¬((((order.map (fun i => (chunk emails CHUNK_SIZE).getD i [])).flatten).map
        (fun email =>
          validateEmailWithRetry isEmailFn isFQDNFn (mxOracles email) (smtpOracles email)
            now email options)).length = 0) := by
      rw [List.length_map, hlen]
      omega
    unfold validateEmailBatch
    dsimp only
    rw [if_neg hne0]
  · simp only [List.length_map]
    omega
  · rw [hemails]
    exact hflat

/-- Claim C6 witness on a two-address batch with the identity chunk
order. -/
theorem claim_C6_witness :
    ∃ res,
      validateEmailBatch isEmailModel isFQDNModel (fun _ _ => true) (fun _ _ => true)
          "2026-02-03T00:00:00.000Z" ["a@gmail.com", "b@x.yy"] DEFAULT_OPTIONS [0]
        = Except.ok res ∧
      res.length = (["a@gmail.com", "b@x.yy"] : List String).length ∧
      (res.map (fun r => r.email)).Perm ["a@gmail.com", "b@x.yy"] :=
  claim_C6_batch_bijection isEmailModel isFQDNModel (fun _ _ => true) (fun _ _ => true)
    "2026-02-03T00:00:00.000Z" ["a@gmail.com", "b@x.yy"] DEFAULT_OPTIONS [0]
    (by decide) (by decide)

/-- Claim C7 (amended): for every input text whose filtered token list is
non-empty, `parseEmailFile` returns exactly the first `min(n, 40000)`
(i.e. `take 40000`) of the `n` tokens obtained by splitting on newline or
comma, trimming, discarding empties and tokens lacking `@`, and stripping
quotes; excess entries are silently dropped and duplicates pass through
(the result is literally the truncation of the full token list). -/
theorem claim_C7_parse_tokens (text : String)
    (h : parseTokens text ≠ []) :
    parseEmailFile text = Except.ok ((specTokenList text).take MAX_EMAILS) := by
  have hdef : parseTokens text = (specTokenList text).take MAX_EMAILS := rfl
  unfold parseEmailFile
  rw [if_neg]
  · rw [hdef]
  · rw [List.length_eq_zero]
    exact h

/-- Claim C7 counterexample: on empty input text the filtered token list is
empty and `parseEmailFile` raises `EmptyInputError` instead of returning
the (empty) truncated token list. -/
theorem claim_C7_counterexample :
    parseEmailFile "" = Except.error "No valid emails found in file" ∧
    parseEmailFile "" ≠ Except.ok ((specTokenList "").take MAX_EMAILS) :=
  ⟨rfl, fun h => Except.noConfusion (((rfl :
      parseEmailFile "" = Except.error "No valid emails found in file")).symm.trans h)⟩

/-- Claim C7 witness on a three-token text with a duplicate. -/
theorem claim_C7_witness :
    parseEmailFile "a@b.cc, x@y.zz\na@b.cc"
      = Except.ok ((specTokenList "a@b.cc, x@y.zz\na@b.cc").take MAX_EMAILS) :=
  claim_C7_parse_tokens "a@b.cc, x@y.zz\na@b.cc" (by decide)

/-- Claim C8: `parseEmailFile` raises `No valid emails found in file` if
and only if the filtered token list is empty; in that case the whole
file-processing chain stops with that error (no validation result is ever
produced); otherwise the token list is returned normally. -/
theorem claim_C8_empty_input (isEmailFn isFQDNFn : String → Bool)
    (mxOracles smtpOracles : String → Nat → Bool) (now text : String)
    (options : ValidationOptions) (order : List Nat) :
    (parseEmailFile text = Except.error "No valid emails found in file"
      ↔ parseTokens text = []) ∧
    (parseTokens text = [] →
      processFile isEmailFn isFQDNFn mxOracles smtpOracles now text options order
        = Except.error "No valid emails found in file") ∧
    (parseTokens text ≠ [] → parseEmailFile text = Except.ok (parseTokens text)) := by
  by_cases he : parseTokens text = []
  · refine ⟨⟨fun _ => he, fun _ => ?_⟩, fun _ => ?_, fun hne => absurd he hne⟩
    · unfold parseEmailFile
      rw [if_pos (by rw [List.length_eq_zero]; exact he)]
    · unfold processFile parseEmailFile
      rw [if_pos (by rw [List.length_eq_zero]; exact he)]
  · have hok : parseEmailFile text = Except.ok (parseTokens text) := by
      unfold parseEmailFile
      rw [if_neg (by rw [List.length_eq_zero]; exact he)]
    refine ⟨⟨fun h => ?_, fun h => absurd h he⟩, fun h => absurd h he, fun _ => hok⟩
    exact Except.noConfusion (hok.symm.trans h)

/-- Claim C8 witness: a non-empty token list is returned normally, and
empty text stops the whole chain with the parse error. -/
theorem claim_C8_witness :
    parseEmailFile "a@b.cc" = Except.ok (parseTokens "a@b.cc") ∧
    processFile isEmailModel isFQDNModel (fun _ _ => true) (fun _ _ => true)
        "2026-02-03T00:00:00.000Z" "" DEFAULT_OPTIONS []
      = Except.error "No valid emails found in file" :=
  ⟨(claim_C8_empty_input isEmailModel isFQDNModel (fun _ _ => true) (fun _ _ => true)
      "2026-02-03T00:00:00.000Z" "a@b.cc" DEFAULT_OPTIONS []).2.2 (by decide),
   (claim_C8_empty_input isEmailModel isFQDNModel (fun _ _ => true) (fun _ _ => true)
      "2026-02-03T00:00:00.000Z" "" DEFAULT_OPTIONS []).2.1 (by decide)⟩

/-- Claim C9: in every result the pipeline produces — for any format and
domain checkers, any probe randomness, any address and any options — the
`details.spamTrap`, `details.disposable` and `details.blacklisted` fields
are `false` (the pipeline never consults `detectSpamTrapPattern`). -/
theorem claim_C9_reputation_fields_false (isEmailFn isFQDNFn : String → Bool)
    (mxOracle smtpOracle : Nat → Bool) (now email : String)
    (options : ValidationOptions) :
    (validateEmailWithRetry isEmailFn isFQDNFn mxOracle smtpOracle now email
        options).details.spamTrap = false ∧
    (validateEmailWithRetry isEmailFn isFQDNFn mxOracle smtpOracle now email
        options).details.disposable = false ∧
    (validateEmailWithRetry isEmailFn isFQDNFn mxOracle smtpOracle now email
        options).details.blacklisted = false := by
  unfold validateEmailWithRetry
  dsimp only
  repeat' split
  all_goals exact ⟨rfl, rfl, rfl⟩

/-- Claim C10: the result of `validateEmailWithRetry` (and of
`validateEmailBatch`) depends on the options only through
`retryStrategy.maxAttempts` and `retryStrategy.backoffDelay`: with
identical probe outcomes, options agreeing on those two fields (so
possibly differing in `enableRetries`, `validateSMTP`, `strictMode` and
`retryStrategy.timeout`) produce identical results. -/
theorem claim_C10_options_dependence (isEmailFn isFQDNFn : String → Bool)
    (mxOracle smtpOracle : Nat → Bool) (mxOracles smtpOracles : String → Nat → Bool)
    (now email : String) (o1 o2 : ValidationOptions)
    (hm : o1.retryStrategy.maxAttempts = o2.retryStrategy.maxAttempts)
    (hb : o1.retryStrategy.backoffDelay = o2.retryStrategy.backoffDelay) :
    validateEmailWithRetry isEmailFn isFQDNFn mxOracle smtpOracle now email o1 =
      validateEmailWithRetry isEmailFn isFQDNFn mxOracle smtpOracle now email o2 ∧
    ∀ (emails : List String) (order : List Nat),
      validateEmailBatch isEmailFn isFQDNFn mxOracles smtpOracles now emails o1 order =
        validateEmailBatch isEmailFn isFQDNFn mxOracles smtpOracles now emails o2 order := by
  refine ⟨validate_options_only isEmailFn isFQDNFn mxOracle smtpOracle now email o1 o2 hm hb,
    fun emails order => ?_⟩
  unfold validateEmailBatch
  rw [funext (fun e =>
    validate_options_only isEmailFn isFQDNFn (mxOracles e) (smtpOracles e) now e o1 o2 hm hb)]

/-- Claim C10 witness: default options versus options flipping
`enableRetries`, `validateSMTP`, `strictMode` and `timeout` give the same
single-address and batch results. -/
theorem claim_C10_witness :
    validateEmailWithRetry isEmailModel isFQDNModel (fun _ => false) (fun _ => false)
        "2026-02-03T00:00:00.000Z" "bob@gmail.com" DEFAULT_OPTIONS =
      validateEmailWithRetry isEmailModel isFQDNModel (fun _ => false) (fun _ => false)
        "2026-02-03T00:00:00.000Z" "bob@gmail.com"
        { enableRetries := false,
          retryStrategy := { maxAttempts := 3, backoffDelay := 2000, timeout := 0 },
          validateSMTP := false, strictMode := true } ∧
    validateEmailBatch isEmailModel isFQDNModel (fun _ _ => false) (fun _ _ => false)
        "2026-02-03T00:00:00.000Z" ["bob@gmail.com"] DEFAULT_OPTIONS [0] =
      validateEmailBatch isEmailModel isFQDNModel (fun _ _ => false) (fun _ _ => false)
        "2026-02-03T00:00:00.000Z" ["bob@gmail.com"]
        { enableRetries := false,
          retryStrategy := { maxAttempts := 3, backoffDelay := 2000, timeout := 0 },
          validateSMTP := false, strictMode := true } [0] :=
  ⟨(claim_C10_options_dependence isEmailModel isFQDNModel (fun _ => false) (fun _ => false)
      (fun _ _ => false) (fun _ _ => false) "2026-02-03T00:00:00.000Z" "bob@gmail.com"
      DEFAULT_OPTIONS
      { enableRetries := false,
        retryStrategy := { maxAttempts := 3, backoffDelay := 2000, timeout := 0 },
        validateSMTP := false, strictMode := true } rfl rfl).1,
   (claim_C10_options_dependence isEmailModel isFQDNModel (fun _ => false) (fun _ => false)
      (fun _ _ => false) (fun _ _ => false) "2026-02-03T00:00:00.000Z" "bob@gmail.com"
      DEFAULT_OPTIONS
      { enableRetries := false,
        retryStrategy := { maxAttempts := 3, backoffDelay := 2000, timeout := 0 },
        validateSMTP := false, strictMode := true } rfl rfl).2 ["bob@gmail.com"] [0]⟩

end EmailValidator
